import Mathlib

/-!
Shallow embedding of the foolbox differentiable-model adapters
(`KerasModel`, `LasagneModel`, `MXNetGluonModel`) and of the model-zoo
git cloner, for checking the design specification against the code.

Tensors are modelled as a shape, a dtype tag, and flat rational data.
The underlying numerical engines (Keras/TensorFlow, Theano/Lasagne,
MXNet Gluon) are opaque: each adapter is parametrised by a record of
engine primitives, mirroring the compiled functions the Python code
builds at construction time.  Python assertion failures on tensor
shapes or dtypes map to `FBError.invalidShape`, `NotImplementedError`
to `FBError.notSupported`, and construction-time assertion failures
(version check, class-count resolution, tuple unpacking) to
`FBError.config`, following the error taxonomy of the specification.

The base class `DifferentiableModel` (file `models/base.py`) is not part
of the analysed sources; its preprocessing transform `_process_input`
and gradient correction `_process_gradient` are modelled from the
specification (section 4.1), as are the helpers of `zoo/common.py` used
by the git cloner.
-/

namespace Foolbox

/-- Numeric dtypes that matter for the claims (floating widths). -/
inductive DType
  | float16
  | float32
  | float64
  deriving DecidableEq

/-- Width order used for numpy-style type promotion. -/
def DType.rank : DType → Nat
  | .float16 => 0
  | .float32 => 1
  | .float64 => 2

/-- Numpy-style result dtype of a binary elementwise operation. -/
def DType.promote (a b : DType) : DType :=
  if b.rank ≤ a.rank then a else b

/-- A numpy array: shape, dtype and row-major flat data over `Rat`. -/
structure Tensor where
  shape : List Nat
  dtype : DType
  data : List Rat
  deriving DecidableEq

/-- Number of axes (`ndarray.ndim`). -/
def Tensor.ndim (t : Tensor) : Nat := t.shape.length

/-- Size of the first axis (`t.shape[0]`, 0 for a rank-0 array). -/
def Tensor.dim0 (t : Tensor) : Nat := t.shape.headD 0

/-- `t[np.newaxis]`: prepend a length-1 axis. -/
def Tensor.unsqueeze0 (t : Tensor) : Tensor := ⟨1 :: t.shape, t.dtype, t.data⟩

/-- `np.squeeze(t, axis=0)`: drop the leading axis (used on length-1 axes). -/
def Tensor.squeeze0 (t : Tensor) : Tensor := ⟨t.shape.tail, t.dtype, t.data⟩

/-- `t[0]`: the first slice along the leading axis. -/
def Tensor.row0 (t : Tensor) : Tensor :=
  ⟨t.shape.tail, t.dtype, t.data.take t.shape.tail.prod⟩

/-- `t.astype(d)`: dtype cast (values are exact in the rational model). -/
def Tensor.astype (t : Tensor) (d : DType) : Tensor := ⟨t.shape, d, t.data⟩

/-- A preprocessing parameter: a scalar (singleton data) or a tensor that
broadcasts over the input.  Broadcasting over leading axes of row-major
data is cyclic indexing into the flat parameter data. -/
structure PVal where
  data : List Rat
  deriving DecidableEq

/-- Value of the parameter at flat index `i` of the input it broadcasts
against (cyclic indexing; a scalar repeats everywhere). -/
def PVal.bcast (p : PVal) (i : Nat) : Rat := p.data.getD (i % p.data.length) 0

/-- The `preprocessing=(subtrahend, divisor)` construction argument. -/
structure Preprocessing where
  sub : PVal
  div : PVal

/-- The gradient-correction data returned by the preprocessing transform:
the divisor (whose elementwise inverse is the gradient scale 1/divisor)
tagged with the raw input dtype. -/
structure GradScale where
  dtype : DType
  div : PVal

/-- Flat data of length `n` built pointwise. -/
def elemwise (n : Nat) (f : Nat → Rat) : List Rat := (List.range n).map f

/-- Modelled from the spec: the Preprocessing Transform of the missing
`models/base.py` (`_process_input`): `apply(raw) = (normalized,
gradient_scale)` with `normalized = (raw - subtrahend) / divisor`
elementwise under broadcasting, keeping the raw shape and dtype, and
`gradient_scale = 1 / divisor` (represented by the divisor itself,
inverted at use), tagged with the raw input dtype. -/
def process_input (pp : Preprocessing) (x : Tensor) : Tensor × GradScale :=
  (⟨x.shape, x.dtype,
    elemwise x.data.length (fun i => (x.data.getD i 0 - pp.sub.bcast i) / pp.div.bcast i)⟩,
   ⟨x.dtype, pp.div⟩)

/-- Modelled from the spec: the gradient correction of the missing
`models/base.py` (`_process_gradient` / `unapply_gradient`): elementwise
product of the gradient computed in normalized space with the gradient
scale 1/divisor, keeping the gradient shape, with numpy dtype promotion
against the scale dtype. -/
def process_gradient (s : GradScale) (g : Tensor) : Tensor :=
  ⟨g.shape, DType.promote g.dtype s.dtype,
   elemwise g.data.length (fun i => g.data.getD i 0 * (s.div.bcast i)⁻¹)⟩

/-- Failure kinds of the adapters, following the spec taxonomy:
shape/dtype assertion failures surface as `invalidShape`,
`NotImplementedError` as `notSupported`, construction-time failures as
`config`. -/
inductive FBError
  | invalidShape
  | notSupported
  | config
  deriving DecidableEq

/-- How the Keras adapter derives logits for the cross-entropy loss,
decided once at construction. -/
inductive LossStrategy
  | preSoftmaxExact
  | clipLogFallback (eps : Rat) (warned : Bool)
  | logitsDirect
  deriving DecidableEq

/-- `eps` of `KerasModel._to_logits`: the literal `10e-8` of the source. -/
def to_logits_eps : Rat := 10 / 100000000

/-- `K.clip(t, lo, hi)`: clamp every element into `[lo, hi]`. -/
def K_clip (lo hi : Rat) (t : Tensor) : Tensor :=
  ⟨t.shape, t.dtype, t.data.map (fun v => max lo (min hi v))⟩

/-- The clipping stage of `KerasModel._to_logits`: clip probabilities to
`[eps, 1 - eps]` with `eps = 10e-8` (the elementwise natural log applied
afterwards is kept symbolic, recorded by `LossStrategy.clipLogFallback`). -/
def to_logits_clip (t : Tensor) : Tensor :=
  K_clip to_logits_eps (1 - to_logits_eps) t

/-- The engine-side state of `KerasModel`: version flag, backend name,
static output shape, and the four compiled computation paths. -/
structure KerasEngine where
  version_ok : Bool
  backend : String
  int_shape : List (Option Nat)
  batch_pred : Tensor → Tensor
  pred_grad : Tensor → Int → Tensor × Tensor
  batch_grad : Tensor → List Int → Tensor
  bw_grad : Tensor → Tensor → Tensor

/-- The constructed `KerasModel` adapter. -/
structure KerasModel where
  nclasses : Nat
  preprocessing : Preprocessing
  engine : KerasEngine
  strategy : LossStrategy

/-- `KerasModel.num_classes()`: returns the count cached at construction. -/
def KerasModel.num_classes (m : KerasModel) : Nat := m.nclasses

/-- `KerasModel.__init__`: version check, `predicts` normalization and
validation, class-count resolution from the static output shape, and the
construction-time choice of the logits strategy. -/
def kerasInit (e : KerasEngine) (pp : Preprocessing) (predicts : String) :
    Except FBError KerasModel :=
  if e.version_ok = false then .error .config
  else
    let predicts2 := if predicts = "probs" then "probabilities" else predicts
    if predicts2 = "probabilities" ∨ predicts2 = "logits" then
      match e.int_shape with
      | [_, some n] =>
        let strat :=
          if predicts2 = "probabilities" then
            if e.backend = "tensorflow" then LossStrategy.preSoftmaxExact
            else LossStrategy.clipLogFallback to_logits_eps true
          else LossStrategy.logitsDirect
        .ok ⟨n, pp, e, strat⟩
      | _ => .error .config
    else .error .config

/-- `KerasModel.batch_predictions`. -/
def KerasModel.batch_predictions (m : KerasModel) (images : Tensor) :
    Except FBError Tensor :=
  let px := (process_input m.preprocessing images).1
  let preds := m.engine.batch_pred px
  if preds.shape = [images.dim0, m.num_classes] then .ok preds
  else .error .invalidShape

/-- `KerasModel.predictions_and_gradient`. -/
def KerasModel.predictions_and_gradient (m : KerasModel) (image : Tensor)
    (label : Int) : Except FBError (Tensor × Tensor) :=
  let pr := process_input m.preprocessing image
  let pg := m.engine.pred_grad pr.1.unsqueeze0 label
  let preds := pg.1.squeeze0
  let g := process_gradient pr.2 pg.2.squeeze0
  if preds.shape = [m.num_classes] then
    if g.shape = image.shape then .ok (preds, g) else .error .invalidShape
  else .error .invalidShape

/-- `KerasModel.batch_gradients`. -/
def KerasModel.batch_gradients (m : KerasModel) (images : Tensor)
    (labels : List Int) : Except FBError Tensor :=
  let pr := process_input m.preprocessing images
  let g := process_gradient pr.2 (m.engine.batch_grad pr.1 labels)
  if g.shape = images.shape then .ok g else .error .invalidShape

/-- `KerasModel.batch_backward`. -/
def KerasModel.batch_backward (m : KerasModel) (gradients images : Tensor) :
    Except FBError Tensor :=
  if gradients.ndim = 2 then
    let pr := process_input m.preprocessing images
    let g := process_gradient pr.2 (m.engine.bw_grad gradients pr.1)
    if g.shape = images.shape then .ok g else .error .invalidShape
  else .error .invalidShape

/-- The engine-side state of `LasagneModel`: static output shape and the
compiled Theano functions. -/
structure LasagneEngine where
  output_shape : List (Option Nat)
  batch_pred : Tensor → Tensor
  pred_grad_fn : Tensor → Int → Tensor × Tensor
  grad_fn : Tensor → Int → Tensor
  bw_grad : Tensor → Tensor → Tensor

/-- The constructed `LasagneModel` adapter; the class count is whatever
the second entry of the static output shape is (possibly unknown). -/
structure LasagneModel where
  nclasses : Option Nat
  preprocessing : Preprocessing
  engine : LasagneEngine

/-- `LasagneModel.num_classes()`: returns the value cached at
construction, which may be unknown (`None`). -/
def LasagneModel.num_classes (m : LasagneModel) : Option Nat := m.nclasses

/-- `LasagneModel.__init__`: unpacks the static output shape into
`(_, num_classes)` and stores the class count without validating it. -/
def lasagneInit (e : LasagneEngine) (pp : Preprocessing) :
    Except FBError LasagneModel :=
  match e.output_shape with
  | [_, c] => .ok ⟨c, pp, e⟩
  | _ => .error .config

/-- Comparison of a concrete shape with the tuple `(num_classes(),)`
when the cached class count may be `None` (a `None` entry never equals
an integer dimension). -/
def clsShape1 (s : List Nat) (c : Option Nat) : Bool :=
  match s, c with
  | [k], some n => k == n
  | _, _ => false

/-- Comparison of a concrete shape with `(a, num_classes())` when the
cached class count may be `None`. -/
def clsShape2 (s : List Nat) (a : Nat) (c : Option Nat) : Bool :=
  match s, c with
  | [k, l], some n => k == a && l == n
  | _, _ => false

/-- `LasagneModel.batch_predictions`. -/
def LasagneModel.batch_predictions (m : LasagneModel) (images : Tensor) :
    Except FBError Tensor :=
  let px := (process_input m.preprocessing images).1
  let preds := m.engine.batch_pred px
  if clsShape2 preds.shape px.dim0 m.num_classes then .ok preds
  else .error .invalidShape

/-- `LasagneModel.predictions_and_gradient`. -/
def LasagneModel.predictions_and_gradient (m : LasagneModel) (image : Tensor)
    (label : Int) : Except FBError (Tensor × Tensor) :=
  let pr := process_input m.preprocessing image
  let pg := m.engine.pred_grad_fn pr.1.unsqueeze0 label
  let preds := pg.1.squeeze0
  let g := process_gradient pr.2 (pg.2.squeeze0.astype pr.1.dtype)
  if clsShape1 preds.shape m.num_classes then
    if g.shape = image.shape then
      if g.dtype = pr.1.dtype then .ok (preds, g) else .error .invalidShape
    else .error .invalidShape
  else .error .invalidShape

/-- `LasagneModel._gradient_one`. -/
def LasagneModel.gradient_one (m : LasagneModel) (image : Tensor)
    (label : Int) : Except FBError Tensor :=
  let pr := process_input m.preprocessing image
  let g := process_gradient pr.2
    ((m.engine.grad_fn pr.1.unsqueeze0 label).squeeze0.astype pr.1.dtype)
  if g.shape = image.shape then
    if g.dtype = pr.1.dtype then .ok g else .error .invalidShape
  else .error .invalidShape

/-- `LasagneModel.batch_gradients`: single-example only, otherwise
`NotImplementedError` (the spec reads it as `NotSupportedError`). -/
def LasagneModel.batch_gradients (m : LasagneModel) (images : Tensor)
    (labels : List Int) : Except FBError Tensor :=
  if images.dim0 = labels.length ∧ labels.length = 1 then
    (m.gradient_one images.row0 (labels.getD 0 0)).map Tensor.unsqueeze0
  else .error .notSupported

/-- `LasagneModel._backward_one`: asserts the per-example upstream
gradient is rank 1 before calling the engine. -/
def LasagneModel.backward_one (m : LasagneModel) (gradient image : Tensor) :
    Except FBError Tensor :=
  if gradient.ndim = 1 then
    let pr := process_input m.preprocessing image
    let g := process_gradient pr.2
      ((m.engine.bw_grad gradient.unsqueeze0 pr.1.unsqueeze0).squeeze0.astype pr.1.dtype)
    if g.shape = image.shape then
      if g.dtype = pr.1.dtype then .ok g else .error .invalidShape
    else .error .invalidShape
  else .error .invalidShape

/-- `LasagneModel.batch_backward`: single-example only, otherwise
`NotImplementedError` (the spec reads it as `NotSupportedError`). -/
def LasagneModel.batch_backward (m : LasagneModel) (gradients images : Tensor) :
    Except FBError Tensor :=
  if images.dim0 = gradients.dim0 ∧ gradients.dim0 = 1 then
    (m.backward_one gradients.row0 images.row0).map Tensor.unsqueeze0
  else .error .notSupported

/-- The engine-side state of `MXNetGluonModel`: the Gluon block forward
pass, the autograd gradient of the softmax cross-entropy loss with
respect to the block input, and the reverse-mode vector-Jacobian
product through the block. -/
structure GluonEngine where
  block : Tensor → Tensor
  grad_ce : Tensor → List Int → Tensor
  vjp_grad : Tensor → Tensor → Tensor

/-- The constructed `MXNetGluonModel` adapter; the class count is a
plain constructor argument. -/
structure MXNetGluonModel where
  nclasses : Nat
  preprocessing : Preprocessing
  engine : GluonEngine

/-- `MXNetGluonModel.num_classes()`: returns the count given at
construction. -/
def MXNetGluonModel.num_classes (m : MXNetGluonModel) : Nat := m.nclasses

/-- `MXNetGluonModel.batch_predictions`: returns the block output with
no postcondition check. -/
def MXNetGluonModel.batch_predictions (m : MXNetGluonModel) (images : Tensor) :
    Except FBError Tensor :=
  .ok (m.engine.block (process_input m.preprocessing images).1)

/-- `MXNetGluonModel.predictions_and_gradient`: no postcondition check. -/
def MXNetGluonModel.predictions_and_gradient (m : MXNetGluonModel)
    (image : Tensor) (label : Int) : Except FBError (Tensor × Tensor) :=
  let pr := process_input m.preprocessing image
  let data := pr.1.unsqueeze0
  let preds := (m.engine.block data).squeeze0
  let g := process_gradient pr.2 (m.engine.grad_ce data [label]).squeeze0
  .ok (preds, g)

/-- `MXNetGluonModel.batch_gradients`: no postcondition check. -/
def MXNetGluonModel.batch_gradients (m : MXNetGluonModel) (images : Tensor)
    (labels : List Int) : Except FBError Tensor :=
  let pr := process_input m.preprocessing images
  .ok (process_gradient pr.2 (m.engine.grad_ce pr.1 labels))

/-- `MXNetGluonModel.batch_backward`: asserts the upstream gradient is
rank 2 and that it matches the block output shape. -/
def MXNetGluonModel.batch_backward (m : MXNetGluonModel)
    (gradients images : Tensor) : Except FBError Tensor :=
  if gradients.ndim = 2 then
    let pr := process_input m.preprocessing images
    let logits := m.engine.block pr.1
    if gradients.shape = logits.shape then
      .ok (process_gradient pr.2 (m.engine.vjp_grad pr.1 gradients))
    else .error .invalidShape
  else .error .invalidShape

/-- The clone failure of `zoo/git_cloner.py`. -/
inductive GitCloneError
  | cloneFailed
  deriving DecidableEq

/-- Modelled from the spec: the helpers of the missing `zoo/common.py`
(`sha256_hash`, `home_directory_path`) and the outcome of the underlying
`Repo.clone_from` primitive, plus the local filesystem as the list of
existing cache paths (`path_exists` is membership). -/
structure ZooEnv where
  sha256_hash : String → String
  home_directory_path : String → String → String
  clone_ok : String → String → Bool

/-- The cache folder constant of `git_cloner.py`. -/
def FOLDER : String := ".foolbox_zoo"

/-- Result of a successful `clone`: the filesystem afterwards, the
returned local path, and whether a clone was actually performed. -/
structure CloneOutcome where
  fs : List String
  local_path : String
  performed_clone : Bool
  deriving DecidableEq

/-- `zoo/git_cloner.py clone(git_uri)`: content-addressed local path
from the hash of the URI; clones only when the path does not yet exist;
any failure of the clone primitive surfaces as `GitCloneError`. -/
def clone (env : ZooEnv) (fs : List String) (git_uri : String) :
    Except GitCloneError CloneOutcome :=
  let hash_digest := env.sha256_hash git_uri
  let local_path := env.home_directory_path FOLDER hash_digest
  if fs.contains local_path then .ok ⟨fs, local_path, false⟩
  else if env.clone_ok git_uri local_path then .ok ⟨local_path :: fs, local_path, true⟩
  else .error .cloneFailed

/-! Concrete adapter instances, engines and inputs used to evaluate the
embedding on closed terms. -/

/-- Identity preprocessing `(0, 1)`. -/
def ppId : Preprocessing := ⟨⟨[0]⟩, ⟨[1]⟩⟩

/-- Preprocessing `(0, 2)`: a visible gradient scale of 1/2. -/
def ppHalf : Preprocessing := ⟨⟨[0]⟩, ⟨[2]⟩⟩

/-- A single raw input of shape `[1]`. -/
def imgOne : Tensor := ⟨[1], DType.float32, [4]⟩

/-- A batch of one raw input, shape `[1, 1]`. -/
def imgOneB : Tensor := ⟨[1, 1], DType.float32, [4]⟩

/-- A rank-2 upstream gradient matrix of shape `[1, 1]`. -/
def upGradOneB : Tensor := ⟨[1, 1], DType.float32, [2]⟩

/-- A batched engine prediction of shape `[1, 1]`. -/
def predT : Tensor := ⟨[1, 1], DType.float32, [9]⟩

/-- A batched engine gradient of shape `[1, 1]`. -/
def gradT : Tensor := ⟨[1, 1], DType.float32, [6]⟩

/-- Squeezed prediction vector. -/
def predVec : Tensor := ⟨[1], DType.float32, [9]⟩

/-- The engine gradient 6 scaled by 1/2. -/
def gradHalf : Tensor := ⟨[1], DType.float32, [3]⟩

/-- The batched engine gradient 6 scaled by 1/2. -/
def gradHalfB : Tensor := ⟨[1, 1], DType.float32, [3]⟩

/-- A well-behaved one-class Keras engine. -/
def sampleKerasEngine : KerasEngine :=
  ⟨true, "tensorflow", [none, some 1],
   fun _ => predT, fun _ _ => (predT, gradT),
   fun _ _ => gradT, fun _ _ => gradT⟩

/-- A Keras adapter over `sampleKerasEngine` with scale-1/2 preprocessing. -/
def sampleKeras : KerasModel := ⟨1, ppHalf, sampleKerasEngine, .preSoftmaxExact⟩

/-- A well-behaved one-class Lasagne engine. -/
def sampleLasagneEngine : LasagneEngine :=
  ⟨[none, some 1], fun _ => predT, fun _ _ => (predT, gradT),
   fun _ _ => gradT, fun _ _ => gradT⟩

/-- A Lasagne adapter over `sampleLasagneEngine`. -/
def sampleLasagne : LasagneModel := ⟨some 1, ppHalf, sampleLasagneEngine⟩

/-- A well-behaved one-class Gluon engine. -/
def sampleGluonEngine : GluonEngine :=
  ⟨fun _ => predT, fun _ _ => gradT, fun _ _ => gradT⟩

/-- An MXNet adapter over `sampleGluonEngine`. -/
def sampleMXNet : MXNetGluonModel := ⟨1, ppHalf, sampleGluonEngine⟩

/-- A float16 raw input: the engines below compute in float32. -/
def imgC2 : Tensor := ⟨[2], DType.float16, [1, 2]⟩

/-- A Keras engine whose gradients come back in float32. -/
def engC2keras : KerasEngine :=
  ⟨true, "tensorflow", [none, some 3], fun _ => predT,
   fun _ _ => (⟨[1, 3], DType.float32, [1, 0, 0]⟩, ⟨[1, 2], DType.float32, [5, 7]⟩),
   fun _ _ => gradT, fun _ _ => gradT⟩

/-- The Keras adapter over `engC2keras`. -/
def mC2keras : KerasModel := ⟨3, ppId, engC2keras, .preSoftmaxExact⟩

/-- A raw input of shape `[4]` for the Gluon block below. -/
def imgC2m : Tensor := ⟨[4], DType.float32, [1, 2, 3, 4]⟩

/-- A Gluon block producing five output classes. -/
def engC2gluon : GluonEngine :=
  ⟨fun _ => ⟨[1, 5], DType.float32, [0, 0, 0, 0, 0]⟩,
   fun _ _ => ⟨[1, 4], DType.float32, [1, 1, 1, 1]⟩, fun _ _ => gradT⟩

/-- An MXNet adapter declared with three classes over a five-class block. -/
def mC2gluon : MXNetGluonModel := ⟨3, ppId, engC2gluon⟩

/-- A rank-1 upstream gradient of length 2. -/
def gradsRank1 : Tensor := ⟨[2], DType.float32, [1, 2]⟩

/-- A batch of two raw inputs, shape `[2, 1]`. -/
def imgsTwo : Tensor := ⟨[2, 1], DType.float32, [4, 5]⟩

/-- Two labels for the batch of two. -/
def labelsTwo : List Int := [0, 1]

/-- A rank-2 upstream gradient matrix with two rows. -/
def upGradsTwo : Tensor := ⟨[2, 1], DType.float32, [1, 2]⟩

/-- A rank-1 upstream gradient with a single entry. -/
def gradsRank1One : Tensor := ⟨[1], DType.float32, [2]⟩

/-- A Gluon block whose batch output shape is `[2, 5]`. -/
def engC5gluon : GluonEngine :=
  ⟨fun _ => ⟨[2, 5], DType.float32, List.replicate 10 0⟩,
   fun _ _ => gradT, fun _ _ => gradT⟩

/-- An MXNet adapter declared with three classes over `engC5gluon`. -/
def mC5gluon : MXNetGluonModel := ⟨3, ppId, engC5gluon⟩

/-- A batch of two raw inputs of shape `[2, 4]`. -/
def imgsC5 : Tensor := ⟨[2, 4], DType.float32, [1, 2, 3, 4, 5, 6, 7, 8]⟩

/-- A two-class Keras engine on the tensorflow backend. -/
def engC6tf : KerasEngine :=
  ⟨true, "tensorflow", [none, some 2], fun _ => predT,
   fun _ _ => (predT, gradT), fun _ _ => gradT, fun _ _ => gradT⟩

/-- A two-class Keras engine on the theano backend. -/
def engC6theano : KerasEngine :=
  ⟨true, "theano", [none, some 2], fun _ => predT,
   fun _ _ => (predT, gradT), fun _ _ => gradT, fun _ _ => gradT⟩

/-- The adapter built from `engC6tf` with `predicts=probabilities`. -/
def mC6tf : KerasModel := ⟨2, ppId, engC6tf, .preSoftmaxExact⟩

/-- The adapter built from `engC6theano` with `predicts=probabilities`. -/
def mC6theano : KerasModel := ⟨2, ppId, engC6theano, .clipLogFallback to_logits_eps true⟩

/-- A probability vector whose single entry 1/2 is unchanged by the clip. -/
def probeT : Tensor := ⟨[1], DType.float32, [1/2]⟩

/-- An empty placeholder tensor for unused engine slots. -/
def dummyT : Tensor := ⟨[], DType.float32, []⟩

/-- A Lasagne engine whose static output shape has an unknown class
dimension. -/
def engC7las : LasagneEngine :=
  ⟨[none, none], fun _ => dummyT, fun _ _ => (dummyT, dummyT),
   fun _ _ => dummyT, fun _ _ => dummyT⟩

/-- A Keras engine with an unsupported engine version. -/
def engC7keras : KerasEngine :=
  ⟨false, "tensorflow", [none, some 2], fun _ => predT,
   fun _ _ => (predT, gradT), fun _ _ => gradT, fun _ _ => gradT⟩

/-- A Keras engine whose static output class dimension is unknown. -/
def engC7kerasNone : KerasEngine :=
  ⟨true, "tensorflow", [none, none], fun _ => predT,
   fun _ _ => (predT, gradT), fun _ _ => gradT, fun _ _ => gradT⟩

/-- A zoo environment whose clone primitive succeeds. -/
def zooEnvOk : ZooEnv := ⟨fun s => s, fun _ d => d, fun _ _ => true⟩

/-- A zoo environment whose clone primitive fails. -/
def zooEnvBad : ZooEnv := ⟨fun s => s, fun _ d => d, fun _ _ => false⟩

/-- Outcome of the first successful clone of "uri" under `zooEnvOk`. -/
def zooOut : CloneOutcome := ⟨["uri"], "uri", true⟩

/-- A valid Keras engine used for the predicts-validation claims. -/
def engC10 : KerasEngine :=
  ⟨true, "theano", [none, some 2], fun _ => predT,
   fun _ _ => (predT, gradT), fun _ _ => gradT, fun _ _ => gradT⟩

/-- Result pair of `sampleKeras.predictions_and_gradient imgOne 0`. -/
def kerasPG : Tensor × Tensor :=
  (predT.squeeze0,
   process_gradient (process_input sampleKeras.preprocessing imgOne).2 gradT.squeeze0)

/-- Result of `sampleKeras.batch_gradients imgOneB [0]`. -/
def kerasBG : Tensor :=
  process_gradient (process_input sampleKeras.preprocessing imgOneB).2
    (sampleKeras.engine.batch_grad (process_input sampleKeras.preprocessing imgOneB).1 [0])

/-- Result of `sampleKeras.batch_backward upGradOneB imgOneB`. -/
def kerasBB : Tensor :=
  process_gradient (process_input sampleKeras.preprocessing imgOneB).2
    (sampleKeras.engine.bw_grad upGradOneB (process_input sampleKeras.preprocessing imgOneB).1)

/-- Result pair of `sampleLasagne.predictions_and_gradient imgOne 0`. -/
def lasagnePG : Tensor × Tensor :=
  (predT.squeeze0,
   process_gradient (process_input sampleLasagne.preprocessing imgOne).2
     (gradT.squeeze0.astype (process_input sampleLasagne.preprocessing imgOne).1.dtype))

/-- Result of `sampleLasagne.batch_gradients imgOneB [0]`. -/
def lasagneBG : Tensor :=
  (process_gradient (process_input sampleLasagne.preprocessing imgOneB.row0).2
    ((sampleLasagne.engine.grad_fn
      (process_input sampleLasagne.preprocessing imgOneB.row0).1.unsqueeze0 0).squeeze0.astype
        (process_input sampleLasagne.preprocessing imgOneB.row0).1.dtype)).unsqueeze0

/-- Result of `sampleLasagne.batch_backward upGradOneB imgOneB`. -/
def lasagneBB : Tensor :=
  (process_gradient (process_input sampleLasagne.preprocessing imgOneB.row0).2
    ((sampleLasagne.engine.bw_grad upGradOneB.row0.unsqueeze0
      (process_input sampleLasagne.preprocessing imgOneB.row0).1.unsqueeze0).squeeze0.astype
        (process_input sampleLasagne.preprocessing imgOneB.row0).1.dtype)).unsqueeze0

/-- Result pair of `sampleMXNet.predictions_and_gradient imgOne 0`. -/
def mxnetPG : Tensor × Tensor :=
  ((sampleMXNet.engine.block (process_input sampleMXNet.preprocessing imgOne).1.unsqueeze0).squeeze0,
   process_gradient (process_input sampleMXNet.preprocessing imgOne).2
     (sampleMXNet.engine.grad_ce
       (process_input sampleMXNet.preprocessing imgOne).1.unsqueeze0 [0]).squeeze0)

/-- Result of `sampleMXNet.batch_gradients imgOneB [0]`. -/
def mxnetBG : Tensor :=
  process_gradient (process_input sampleMXNet.preprocessing imgOneB).2
    (sampleMXNet.engine.grad_ce (process_input sampleMXNet.preprocessing imgOneB).1 [0])

/-- Result of `sampleMXNet.batch_backward upGradOneB imgOneB`. -/
def mxnetBB : Tensor :=
  process_gradient (process_input sampleMXNet.preprocessing imgOneB).2
    (sampleMXNet.engine.vjp_grad (process_input sampleMXNet.preprocessing imgOneB).1 upGradOneB)

/-! Helper lemmas about the embedding. -/

theorem elemwise_getD (n : Nat) (f : Nat → Rat) (i : Nat) :
    (elemwise n f).getD i 0 = if i < n then f i else 0 := by
  by_cases h : i < n
  · rw [elemwise, List.getD_eq_getElem?_getD, List.getElem?_map,
      List.getElem?_range h]
    simp [h]
  · rw [elemwise, List.getD_eq_getElem?_getD, List.getElem?_eq_none]
    · simp [h]
    · simpa using Nat.le_of_not_lt h

theorem process_gradient_getD (s : GradScale) (g : Tensor) (i : Nat) :
    (process_gradient s g).data.getD i 0 = g.data.getD i 0 * (s.div.bcast i)⁻¹ := by
  show (elemwise g.data.length fun j => g.data.getD j 0 * (s.div.bcast j)⁻¹).getD i 0 = _
  rw [elemwise_getD]
  by_cases h : i < g.data.length
  · simp [h]
  · rw [if_neg h, List.getD_eq_default]
    · ring
    · exact Nat.le_of_not_lt h

theorem promote_self (d : DType) : DType.promote d d = d := by
  simp [DType.promote]

theorem process_input_fst_shape (pp : Preprocessing) (x : Tensor) :
    ((process_input pp x).1).shape = x.shape := rfl

theorem process_gradient_shape (s : GradScale) (g : Tensor) :
    (process_gradient s g).shape = g.shape := rfl

theorem clsShape1_spec (s : List Nat) (c : Option Nat)
    (h : clsShape1 s c = true) :
    c = some (s.getD 0 0) ∧ s = [s.getD 0 0] := by
  match s, c, h with
  | [k], some n, h =>
    simp only [clsShape1, beq_iff_eq] at h
    subst h
    exact ⟨rfl, rfl⟩
  | [], c, h => exact absurd h (by simp [clsShape1])
  | k :: l :: rest, c, h => exact absurd h (by simp [clsShape1])
  | [k], none, h => exact absurd h (by simp [clsShape1])

theorem clsShape2_spec (s : List Nat) (a : Nat) (c : Option Nat)
    (h : clsShape2 s a c = true) :
    c = some (s.getD 1 0) ∧ s = [a, s.getD 1 0] := by
  match s, c, h with
  | [k, l], some n, h =>
    simp only [clsShape2, Bool.and_eq_true, beq_iff_eq] at h
    obtain ⟨hk, hl⟩ := h
    subst hk
    subst hl
    exact ⟨rfl, rfl⟩
  | [], c, h => exact absurd h (by simp [clsShape2])
  | [k], c, h => exact absurd h (by simp [clsShape2])
  | k :: l :: m :: rest, c, h => exact absurd h (by simp [clsShape2])
  | [k, l], none, h => exact absurd h (by simp [clsShape2])

theorem gradient_one_ok (m : LasagneModel) (img : Tensor) (lbl : Int)
    (g : Tensor) (h : m.gradient_one img lbl = .ok g) :
    g = process_gradient (process_input m.preprocessing img).2
      ((m.engine.grad_fn (process_input m.preprocessing img).1.unsqueeze0
        lbl).squeeze0.astype (process_input m.preprocessing img).1.dtype) := by
  simp only [LasagneModel.gradient_one] at h
  split at h
  · split at h
    · injection h with h
      exact h.symm
    · simp at h
  · simp at h

theorem backward_one_ok (m : LasagneModel) (gradient img : Tensor)
    (g : Tensor) (h : m.backward_one gradient img = .ok g) :
    g = process_gradient (process_input m.preprocessing img).2
      ((m.engine.bw_grad gradient.unsqueeze0
        (process_input m.preprocessing img).1.unsqueeze0).squeeze0.astype
          (process_input m.preprocessing img).1.dtype) := by
  simp only [LasagneModel.backward_one] at h
  split at h
  · split at h
    · split at h
      · injection h with h
        exact h.symm
      · simp at h
    · simp at h
  · simp at h

/-! Claim theorems. -/

/-- C8: the model-repository fetch `clone(git_uri)` is idempotent: the
returned local path is derived solely from the hash of `git_uri`, and a
second call with the same URI returns the same local path without
performing another clone, because the path already exists locally. -/
theorem C8_clone_idempotent :
    ∀ (env : ZooEnv) (fs : List String) (uri : String) (out : CloneOutcome),
      clone env fs uri = .ok out →
      out.local_path = env.home_directory_path FOLDER (env.sha256_hash uri) ∧
      clone env out.fs uri = .ok ⟨out.fs, out.local_path, false⟩ := by
  intro env fs uri out h
  unfold clone at h ⊢
  by_cases hc : fs.contains (env.home_directory_path FOLDER (env.sha256_hash uri)) = true
  · rw [if_pos hc] at h
    injection h with h
    subst h
    exact ⟨rfl, by rw [if_pos hc]⟩
  · rw [if_neg hc] at h
    by_cases hk : env.clone_ok uri (env.home_directory_path FOLDER (env.sha256_hash uri)) = true
    · rw [if_pos hk] at h
      injection h with h
      subst h
      refine ⟨rfl, ?_⟩
      rw [if_pos]
      simp
    · rw [if_neg hk] at h
      simp at h

/-- Witness for C8 on a concrete environment: the first clone of "uri"
succeeds, the path is the hash-derived cache path, and the second call
returns the same path without cloning. -/
theorem C8_clone_idempotent_witness :
    clone zooEnvOk [] "uri" = .ok zooOut ∧
    zooOut.local_path = zooEnvOk.home_directory_path FOLDER (zooEnvOk.sha256_hash "uri") ∧
    clone zooEnvOk zooOut.fs "uri" = .ok ⟨zooOut.fs, zooOut.local_path, false⟩ := by
  have h : clone zooEnvOk [] "uri" = .ok zooOut := rfl
  exact ⟨h, C8_clone_idempotent zooEnvOk [] "uri" zooOut h⟩

/-- C9: when the clone primitive fails and the path does not already
exist locally, `clone` fails with `GitCloneError`; the failure is never
swallowed into a normal return value. -/
theorem C9_clone_failure :
    ∀ (env : ZooEnv) (fs : List String) (uri : String),
      fs.contains (env.home_directory_path FOLDER (env.sha256_hash uri)) = false →
      env.clone_ok uri (env.home_directory_path FOLDER (env.sha256_hash uri)) = false →
      clone env fs uri = .error .cloneFailed := by
  intro env fs uri h1 h2
  unfold clone
  rw [if_neg (by simpa using h1), if_neg (by simpa using h2)]

/-- Witness for C9: a concrete environment whose clone primitive fails
makes `clone` return the clone-failure error. -/
theorem C9_clone_failure_witness :
    clone zooEnvBad [] "uri" = .error .cloneFailed :=
  C9_clone_failure zooEnvBad [] "uri" rfl rfl

/-- C10: `predicts="probs"` behaves identically to
`predicts="probabilities"` at construction, and any `predicts` value
outside the accepted set makes construction fail before any computation
path is compiled (for every engine, independently of its compiled
functions and output shape). -/
theorem C10_predicts_validation :
    (∀ (e : KerasEngine) (pp : Preprocessing),
        kerasInit e pp "probs" = kerasInit e pp "probabilities") ∧
    (∀ (e : KerasEngine) (pp : Preprocessing) (s : String),
        e.version_ok = true → s ≠ "probabilities" → s ≠ "probs" → s ≠ "logits" →
        kerasInit e pp s = .error .config) := by
  constructor
  · intro e pp
    unfold kerasInit
    simp
  · intro e pp s hv h1 h2 h3
    unfold kerasInit
    rw [hv]
    simp [h1, h2, h3]

/-- Witness for C10: a concrete engine rejects an unrecognized
`predicts` value at construction. -/
theorem C10_predicts_validation_witness :
    kerasInit engC10 ppId "gibberish" = .error .config :=
  C10_predicts_validation.2 engC10 ppId "gibberish" rfl (by decide) (by decide)
    (by decide)

/-- C6: with `predicts="probabilities"`, construction uses the exact
pre-softmax tensor strategy on the tensorflow backend and otherwise
falls back to clipping probabilities to `[eps, 1-eps]` with
`eps = 10e-8 = 1e-7` followed by an elementwise natural log, warning
that the conversion is numerically unstable; clipped values always lie
in `[eps, 1-eps]`. -/
theorem C6_logits_strategy :
    (∀ (e : KerasEngine) (pp : Preprocessing) (m : KerasModel),
        kerasInit e pp "probabilities" = .ok m →
        (e.backend = "tensorflow" → m.strategy = .preSoftmaxExact) ∧
        (e.backend ≠ "tensorflow" →
          m.strategy = .clipLogFallback to_logits_eps true)) ∧
    to_logits_eps = 1 / 10000000 ∧
    (∀ (t : Tensor) (v : Rat), v ∈ (to_logits_clip t).data →
        to_logits_eps ≤ v ∧ v ≤ 1 - to_logits_eps) := by
  refine ⟨?_, by norm_num [to_logits_eps], ?_⟩
  · intro e pp m h
    unfold kerasInit at h
    by_cases hv : e.version_ok = false
    · rw [if_pos hv] at h
      simp at h
    · rw [if_neg hv] at h
      simp only [show ("probabilities" = "probs") = False by simp,
        if_false, ite_false] at h
      simp at h
      obtain ⟨vok, bk, ishape, f1, f2, f3, f4⟩ := e
      cases ishape with
      | nil => simp at h
      | cons a tl =>
        cases tl with
        | nil => simp at h
        | cons b tl2 =>
          cases tl2 with
          | cons c tl3 => simp at h
          | nil =>
            cases b with
            | none => simp at h
            | some n =>
              injection h with h
              subst h
              constructor
              · intro hb
                simp only [KerasModel.strategy]
                rw [if_pos hb]
              · intro hb
                simp only [KerasModel.strategy]
                rw [if_neg hb]
  · intro t v hv
    unfold to_logits_clip K_clip at hv
    simp only [List.mem_map] at hv
    obtain ⟨x, _, rfl⟩ := hv
    refine ⟨le_max_left _ _, max_le (by norm_num [to_logits_eps]) (min_le_left _ _)⟩

/-- Witness for C6: the tensorflow-backend adapter gets the exact
pre-softmax strategy, the theano-backend adapter gets the warned
clip-log fallback, and the clipped value of probability 0 lies in the
clip interval. -/
theorem C6_logits_strategy_witness :
    mC6tf.strategy = .preSoftmaxExact ∧
    mC6theano.strategy = .clipLogFallback to_logits_eps true ∧
    (to_logits_eps ≤ (1 : Rat)/2 ∧ (1 : Rat)/2 ≤ 1 - to_logits_eps) := by
  have hm : (to_logits_clip probeT).data = [(1 : Rat)/2] := by
    unfold to_logits_clip K_clip probeT
    simp only [List.map]
    rw [min_eq_right (by norm_num [to_logits_eps]),
      max_eq_right (by norm_num [to_logits_eps])]
  refine ⟨(C6_logits_strategy.1 engC6tf ppId mC6tf rfl).1 rfl,
          (C6_logits_strategy.1 engC6theano ppId mC6theano rfl).2 (by decide),
          C6_logits_strategy.2.2 probeT ((1 : Rat)/2) (by rw [hm]; exact List.mem_singleton.mpr rfl)⟩

/-- C7 counterexample: a Lasagne network whose static output shape has
an unknown class dimension constructs successfully (no
`ConfigurationError`), caching `None` as the class count — construction
does not fail as the claim states. -/
theorem C7_num_classes_counterexample :
    (lasagneInit engC7las ppId).toOption.map LasagneModel.num_classes =
      some none := rfl

/-- C7 amended: KerasModel construction fails (ConfigurationError) when
the engine version check fails or when the class dimension of the
static output shape is unknown, and on success the cached
`num_classes()` is exactly the resolved second entry of that shape;
LasagneModel stores the class dimension without validating it, so an
unknown dimension yields `num_classes() = None` instead of a
construction failure. -/
theorem C7_num_classes_amended :
    (∀ (e : KerasEngine) (pp : Preprocessing) (s : String),
        e.version_ok = false → kerasInit e pp s = .error .config) ∧
    (∀ (e : KerasEngine) (pp : Preprocessing) (a : Option Nat),
        e.int_shape = [a, none] → kerasInit e pp "logits" = .error .config) ∧
    (∀ (e : KerasEngine) (pp : Preprocessing) (s : String) (m : KerasModel),
        kerasInit e pp s = .ok m →
        e.int_shape.getD 1 none = some m.num_classes ∧ e.int_shape.length = 2) ∧
    (∀ (e : LasagneEngine) (pp : Preprocessing) (a c : Option Nat),
        e.output_shape = [a, c] →
        (lasagneInit e pp).toOption.map LasagneModel.num_classes = some c) := by
  refine ⟨?_, ?_, ?_, ?_⟩
  · intro e pp s hv
    unfold kerasInit
    rw [if_pos hv]
  · intro e pp a hs
    unfold kerasInit
    by_cases hv : e.version_ok = false
    · rw [if_pos hv]
    · rw [if_neg hv]
      simp [hs]
  · intro e pp s m h
    unfold kerasInit at h
    by_cases hv : e.version_ok = false
    · rw [if_pos hv] at h
      simp at h
    · rw [if_neg hv] at h
      obtain ⟨vok, bk, ishape, f1, f2, f3, f4⟩ := e
      by_cases hp : ((if s = "probs" then "probabilities" else s) = "probabilities" ∨
          (if s = "probs" then "probabilities" else s) = "logits")
      · rw [if_pos hp] at h
        cases ishape with
        | nil => simp at h
        | cons a tl =>
          cases tl with
          | nil => simp at h
          | cons b tl2 =>
            cases tl2 with
            | cons c tl3 => simp at h
            | nil =>
              cases b with
              | none => simp at h
              | some n =>
                injection h with h
                subst h
                exact ⟨rfl, rfl⟩
      · rw [if_neg hp] at h
        simp at h
  · intro e pp a c hs
    unfold lasagneInit
    rw [hs]
    rfl

/-- Witness for C7 amended: a bad-version engine and an
unknown-class-count engine both fail at construction; a successful
construction caches the resolved class count; the Lasagne adapter with
unknown class dimension caches `None`. -/
theorem C7_num_classes_witness :
    kerasInit engC7keras ppId "logits" = .error .config ∧
    kerasInit engC7kerasNone ppId "logits" = .error .config ∧
    engC6tf.int_shape.getD 1 none = some mC6tf.num_classes ∧
    (lasagneInit engC7las ppId).toOption.map LasagneModel.num_classes =
      some none := by
  refine ⟨C7_num_classes_amended.1 engC7keras ppId "logits" rfl,
          C7_num_classes_amended.2.1 engC7kerasNone ppId none rfl,
          (C7_num_classes_amended.2.2.1 engC6tf ppId "probabilities" mC6tf rfl).1,
          C7_num_classes_amended.2.2.2 engC7las ppId none none rfl⟩

/-- C3 counterexample: for the Lasagne adaptation, `batch_backward` with
a rank-1 upstream gradient whose leading dimension is not 1 fails with
`NotSupportedError` (`NotImplementedError` in the source), not with
`InvalidShapeError` as the claim states for every adaptation. -/
theorem C3_rank_check_counterexample :
    gradsRank1.ndim = 1 ∧
    sampleLasagne.batch_backward gradsRank1 imgsTwo = .error .notSupported :=
  ⟨rfl, rfl⟩

/-- C3 amended: Keras and MXNetGluon check the upstream gradient rank
first and fail with `InvalidShapeError` for any rank other than 2,
while a rank-2 matrix passes the check (and the call succeeds when the
engine returns an input-shaped gradient); Lasagne checks the batch size
first, failing with `NotSupportedError` whenever the leading dimensions
are not both 1, and surfaces the rank violation as `InvalidShapeError`
only when the leading dimensions are 1. -/
theorem C3_rank_check_amended :
    (∀ (m : KerasModel) (g imgs : Tensor), g.ndim ≠ 2 →
        m.batch_backward g imgs = .error .invalidShape) ∧
    (∀ (m : MXNetGluonModel) (g imgs : Tensor), g.ndim ≠ 2 →
        m.batch_backward g imgs = .error .invalidShape) ∧
    (∀ (m : KerasModel) (g imgs : Tensor), g.ndim = 2 →
        (m.engine.bw_grad g (process_input m.preprocessing imgs).1).shape = imgs.shape →
        m.batch_backward g imgs =
          .ok (process_gradient (process_input m.preprocessing imgs).2
            (m.engine.bw_grad g (process_input m.preprocessing imgs).1))) ∧
    (∀ (m : MXNetGluonModel) (g imgs : Tensor), g.ndim = 2 →
        g.shape = (m.engine.block (process_input m.preprocessing imgs).1).shape →
        m.batch_backward g imgs =
          .ok (process_gradient (process_input m.preprocessing imgs).2
            (m.engine.vjp_grad (process_input m.preprocessing imgs).1 g))) ∧
    (∀ (m : LasagneModel) (g imgs : Tensor), g.ndim ≠ 2 →
        imgs.dim0 = g.dim0 → g.dim0 = 1 →
        m.batch_backward g imgs = .error .invalidShape) ∧
    (∀ (m : LasagneModel) (g imgs : Tensor),
        ¬(imgs.dim0 = g.dim0 ∧ g.dim0 = 1) →
        m.batch_backward g imgs = .error .notSupported) := by
  refine ⟨?_, ?_, ?_, ?_, ?_, ?_⟩
  · intro m g imgs h
    unfold KerasModel.batch_backward
    rw [if_neg h]
  · intro m g imgs h
    unfold MXNetGluonModel.batch_backward
    rw [if_neg h]
  · intro m g imgs h1 h2
    simp only [KerasModel.batch_backward]
    rw [if_pos h1]
    split
    · rfl
    · next hcond =>
      exact absurd (by rw [process_gradient_shape]; exact h2) hcond
  · intro m g imgs h1 h2
    simp only [MXNetGluonModel.batch_backward]
    rw [if_pos h1]
    split
    · rfl
    · next hcond => exact absurd h2 hcond
  · intro m g imgs h1 h2 h3
    unfold LasagneModel.batch_backward
    rw [if_pos ⟨h2, h3⟩]
    have hrow : ¬(g.row0.ndim = 1) := by
      simp only [Tensor.row0, Tensor.ndim, List.length_tail]
      simp only [Tensor.ndim] at h1
      omega
    unfold LasagneModel.backward_one
    rw [if_neg hrow]
    rfl
  · intro m g imgs h
    unfold LasagneModel.batch_backward
    rw [if_neg h]

/-- Witness for C3 amended, at concrete inputs: rank-1 gradients are
rejected with `InvalidShapeError` by Keras and MXNetGluon and, at batch
size 1, by Lasagne; rank-2 gradients pass the check and succeed on a
cooperating engine; Lasagne with leading dimension 2 fails with
`NotSupportedError`. -/
theorem C3_rank_check_witness :
    sampleKeras.batch_backward gradsRank1 imgOneB = .error .invalidShape ∧
    sampleMXNet.batch_backward gradsRank1 imgOneB = .error .invalidShape ∧
    sampleKeras.batch_backward upGradOneB imgOneB =
      .ok (process_gradient (process_input sampleKeras.preprocessing imgOneB).2
        (sampleKeras.engine.bw_grad upGradOneB
          (process_input sampleKeras.preprocessing imgOneB).1)) ∧
    sampleMXNet.batch_backward upGradOneB imgOneB =
      .ok (process_gradient (process_input sampleMXNet.preprocessing imgOneB).2
        (sampleMXNet.engine.vjp_grad
          (process_input sampleMXNet.preprocessing imgOneB).1 upGradOneB)) ∧
    sampleLasagne.batch_backward gradsRank1One imgOneB = .error .invalidShape ∧
    sampleLasagne.batch_backward upGradsTwo imgsTwo = .error .notSupported := by
  refine ⟨C3_rank_check_amended.1 sampleKeras gradsRank1 imgOneB (by decide),
          C3_rank_check_amended.2.1 sampleMXNet gradsRank1 imgOneB (by decide),
          C3_rank_check_amended.2.2.1 sampleKeras upGradOneB imgOneB rfl rfl,
          C3_rank_check_amended.2.2.2.1 sampleMXNet upGradOneB imgOneB rfl rfl,
          C3_rank_check_amended.2.2.2.2.1 sampleLasagne gradsRank1One imgOneB
            (by decide) rfl rfl,
          C3_rank_check_amended.2.2.2.2.2 sampleLasagne upGradsTwo imgsTwo
            (by decide)⟩

/-- C4: the Lasagne adapter supports only batch size 1: with matching
leading dimensions greater than 1, `batch_gradients` and
`batch_backward` fail with `NotSupportedError` (`NotImplementedError`
in the source) instead of silently looping or truncating, and with
batch size 1 both calls succeed when the engine returns an input-shaped
per-example gradient. -/
theorem C4_batch_size_one_limit :
    (∀ (m : LasagneModel) (imgs : Tensor) (labels : List Int),
        imgs.dim0 = labels.length → 1 < labels.length →
        m.batch_gradients imgs labels = .error .notSupported) ∧
    (∀ (m : LasagneModel) (g imgs : Tensor),
        imgs.dim0 = g.dim0 → 1 < g.dim0 →
        m.batch_backward g imgs = .error .notSupported) ∧
    (∀ (m : LasagneModel) (imgs : Tensor) (labels : List Int),
        imgs.dim0 = 1 → labels.length = 1 →
        (m.engine.grad_fn (process_input m.preprocessing imgs.row0).1.unsqueeze0
            (labels.getD 0 0)).shape.tail = imgs.row0.shape →
        m.batch_gradients imgs labels =
          .ok ((process_gradient (process_input m.preprocessing imgs.row0).2
            ((m.engine.grad_fn (process_input m.preprocessing imgs.row0).1.unsqueeze0
              (labels.getD 0 0)).squeeze0.astype
                (process_input m.preprocessing imgs.row0).1.dtype)).unsqueeze0)) ∧
    (∀ (m : LasagneModel) (g imgs : Tensor),
        imgs.dim0 = 1 → g.dim0 = 1 → g.ndim = 2 →
        (m.engine.bw_grad g.row0.unsqueeze0
            (process_input m.preprocessing imgs.row0).1.unsqueeze0).shape.tail =
          imgs.row0.shape →
        m.batch_backward g imgs =
          .ok ((process_gradient (process_input m.preprocessing imgs.row0).2
            ((m.engine.bw_grad g.row0.unsqueeze0
              (process_input m.preprocessing imgs.row0).1.unsqueeze0).squeeze0.astype
                (process_input m.preprocessing imgs.row0).1.dtype)).unsqueeze0)) := by
  refine ⟨?_, ?_, ?_, ?_⟩
  · intro m imgs labels h1 h2
    unfold LasagneModel.batch_gradients
    rw [if_neg]
    rintro ⟨_, hlen⟩
    omega
  · intro m g imgs h1 h2
    unfold LasagneModel.batch_backward
    rw [if_neg]
    rintro ⟨_, hdim⟩
    omega
  · intro m imgs labels h1 h2 hsh
    unfold LasagneModel.batch_gradients
    rw [if_pos ⟨h1.trans h2.symm, h2⟩]
    have hgo : m.gradient_one imgs.row0 (labels.getD 0 0) =
        .ok (process_gradient (process_input m.preprocessing imgs.row0).2
          ((m.engine.grad_fn (process_input m.preprocessing imgs.row0).1.unsqueeze0
            (labels.getD 0 0)).squeeze0.astype
              (process_input m.preprocessing imgs.row0).1.dtype)) := by
      simp only [LasagneModel.gradient_one]
      split
      · split
        · rfl
        · next hcond => exact absurd (promote_self imgs.row0.dtype) hcond
      · next hcond =>
        exact absurd (by rw [process_gradient_shape]; exact hsh) hcond
    rw [hgo]
    rfl
  · intro m g imgs h1 h2 h3 hsh
    unfold LasagneModel.batch_backward
    rw [if_pos ⟨h1.trans h2.symm, h2⟩]
    have hrow : g.row0.ndim = 1 := by
      simp only [Tensor.row0, Tensor.ndim, List.length_tail]
      simp only [Tensor.ndim] at h3
      omega
    have hbo : m.backward_one g.row0 imgs.row0 =
        .ok (process_gradient (process_input m.preprocessing imgs.row0).2
          ((m.engine.bw_grad g.row0.unsqueeze0
            (process_input m.preprocessing imgs.row0).1.unsqueeze0).squeeze0.astype
              (process_input m.preprocessing imgs.row0).1.dtype)) := by
      simp only [LasagneModel.backward_one]
      rw [if_pos hrow]
      split
      · split
        · rfl
        · next hcond => exact absurd (promote_self imgs.row0.dtype) hcond
      · next hcond =>
        exact absurd (by rw [process_gradient_shape]; exact hsh) hcond
    rw [hbo]
    rfl

/-- Witness for C4, at concrete inputs: a batch of two fails with
`NotSupportedError` in both operations; a batch of one succeeds in
both, returning the engine gradient scaled by 1/2. -/
theorem C4_batch_size_one_witness :
    sampleLasagne.batch_gradients imgsTwo labelsTwo = .error .notSupported ∧
    sampleLasagne.batch_backward upGradsTwo imgsTwo = .error .notSupported ∧
    sampleLasagne.batch_gradients imgOneB [0] =
      .ok ((process_gradient (process_input sampleLasagne.preprocessing imgOneB.row0).2
        ((sampleLasagne.engine.grad_fn
          (process_input sampleLasagne.preprocessing imgOneB.row0).1.unsqueeze0
            ([0].getD 0 0)).squeeze0.astype
              (process_input sampleLasagne.preprocessing imgOneB.row0).1.dtype)).unsqueeze0) ∧
    sampleLasagne.batch_backward upGradOneB imgOneB =
      .ok ((process_gradient (process_input sampleLasagne.preprocessing imgOneB.row0).2
        ((sampleLasagne.engine.bw_grad upGradOneB.row0.unsqueeze0
          (process_input sampleLasagne.preprocessing imgOneB.row0).1.unsqueeze0).squeeze0.astype
            (process_input sampleLasagne.preprocessing imgOneB.row0).1.dtype)).unsqueeze0) := by
  refine ⟨C4_batch_size_one_limit.1 sampleLasagne imgsTwo labelsTwo rfl (by decide),
          C4_batch_size_one_limit.2.1 sampleLasagne upGradsTwo imgsTwo rfl (by decide),
          C4_batch_size_one_limit.2.2.1 sampleLasagne imgOneB [0] rfl rfl rfl,
          C4_batch_size_one_limit.2.2.2 sampleLasagne upGradOneB imgOneB rfl rfl rfl rfl⟩

/-- C5 counterexample: the MXNetGluon adapter performs no postcondition
check in `batch_predictions`: with a declared class count of 3 but a
block whose batch output shape is `[2, 5]`, the call returns a matrix
of shape `[2, 5]`, not `(N, num_classes())`. -/
theorem C5_batch_predictions_counterexample :
    (mC5gluon.batch_predictions imgsC5).toOption.map Tensor.shape = some [2, 5] ∧
    mC5gluon.num_classes = 3 ∧ imgsC5.dim0 = 2 := ⟨rfl, rfl, rfl⟩

/-- C5 amended: Keras and Lasagne enforce the `(N, num_classes())`
output shape of `batch_predictions` by a postcondition check, so any
successful return has that shape; MXNetGluon returns the block output
unchecked, so its output has that shape exactly when the block output
does. -/
theorem C5_batch_predictions_amended :
    (∀ (m : KerasModel) (images r : Tensor),
        m.batch_predictions images = .ok r →
        r.shape = [images.dim0, m.num_classes]) ∧
    (∀ (m : LasagneModel) (images r : Tensor),
        m.batch_predictions images = .ok r →
        m.num_classes = some (r.shape.getD 1 0) ∧
        r.shape = [images.dim0, r.shape.getD 1 0]) ∧
    (∀ (m : MXNetGluonModel) (images : Tensor),
        (m.engine.block (process_input m.preprocessing images).1).shape =
          [images.dim0, m.num_classes] →
        (m.batch_predictions images).toOption.map Tensor.shape =
          some [images.dim0, m.num_classes]) := by
  refine ⟨?_, ?_, ?_⟩
  · intro m images r h
    simp only [KerasModel.batch_predictions] at h
    split at h
    · next hcond =>
      injection h with h
      subst h
      exact hcond
    · simp at h
  · intro m images r h
    simp only [LasagneModel.batch_predictions] at h
    split at h
    · next hcond =>
      injection h with h
      subst h
      exact clsShape2_spec _ _ _ hcond
    · simp at h
  · intro m images hb
    show some (m.engine.block (process_input m.preprocessing images).1).shape =
      some [images.dim0, m.num_classes]
    exact congrArg some hb

/-- Witness for C5 amended, at concrete inputs: a one-class Keras and
Lasagne adapter return a `[1, 1]` matrix, and the MXNetGluon adapter
with a matching block returns the declared shape. -/
theorem C5_batch_predictions_witness :
    predT.shape = [imgOneB.dim0, sampleKeras.num_classes] ∧
    (sampleLasagne.num_classes = some (predT.shape.getD 1 0) ∧
     predT.shape = [imgOneB.dim0, predT.shape.getD 1 0]) ∧
    (sampleMXNet.batch_predictions imgOneB).toOption.map Tensor.shape =
      some [imgOneB.dim0, sampleMXNet.num_classes] := by
  refine ⟨C5_batch_predictions_amended.1 sampleKeras imgOneB predT rfl,
          C5_batch_predictions_amended.2.1 sampleLasagne imgOneB predT rfl,
          C5_batch_predictions_amended.2.2 sampleMXNet imgOneB rfl⟩

/-- C1: in every adapter, every gradient-producing operation
(`predictions_and_gradient`, `batch_gradients`, `batch_backward`)
returns the gradient computed by the engine in normalized space
multiplied elementwise by the gradient scale 1/divisor of the
preprocessing parameters; no operation returns an engine gradient
unscaled. -/
theorem C1_gradients_unapplied :
    (∀ (s : GradScale) (g : Tensor) (i : Nat),
        (process_gradient s g).data.getD i 0 =
          g.data.getD i 0 * (s.div.bcast i)⁻¹) ∧
    (∀ (m : KerasModel) (img : Tensor) (lbl : Int) (p g : Tensor),
        m.predictions_and_gradient img lbl = .ok (p, g) →
        ∀ i, g.data.getD i 0 =
          (m.engine.pred_grad (process_input m.preprocessing img).1.unsqueeze0
            lbl).2.data.getD i 0 * ((m.preprocessing.div.bcast i)⁻¹)) ∧
    (∀ (m : KerasModel) (imgs : Tensor) (labels : List Int) (g : Tensor),
        m.batch_gradients imgs labels = .ok g →
        ∀ i, g.data.getD i 0 =
          (m.engine.batch_grad (process_input m.preprocessing imgs).1
            labels).data.getD i 0 * ((m.preprocessing.div.bcast i)⁻¹)) ∧
    (∀ (m : KerasModel) (grads imgs : Tensor) (g : Tensor),
        m.batch_backward grads imgs = .ok g →
        ∀ i, g.data.getD i 0 =
          (m.engine.bw_grad grads
            (process_input m.preprocessing imgs).1).data.getD i 0 *
            ((m.preprocessing.div.bcast i)⁻¹)) ∧
    (∀ (m : LasagneModel) (img : Tensor) (lbl : Int) (p g : Tensor),
        m.predictions_and_gradient img lbl = .ok (p, g) →
        ∀ i, g.data.getD i 0 =
          (m.engine.pred_grad_fn (process_input m.preprocessing img).1.unsqueeze0
            lbl).2.data.getD i 0 * ((m.preprocessing.div.bcast i)⁻¹)) ∧
    (∀ (m : LasagneModel) (imgs : Tensor) (labels : List Int) (g : Tensor),
        m.batch_gradients imgs labels = .ok g →
        ∀ i, g.data.getD i 0 =
          (m.engine.grad_fn (process_input m.preprocessing imgs.row0).1.unsqueeze0
            (labels.getD 0 0)).data.getD i 0 * ((m.preprocessing.div.bcast i)⁻¹)) ∧
    (∀ (m : LasagneModel) (grads imgs : Tensor) (g : Tensor),
        m.batch_backward grads imgs = .ok g →
        ∀ i, g.data.getD i 0 =
          (m.engine.bw_grad grads.row0.unsqueeze0
            (process_input m.preprocessing imgs.row0).1.unsqueeze0).data.getD i 0 *
            ((m.preprocessing.div.bcast i)⁻¹)) ∧
    (∀ (m : MXNetGluonModel) (img : Tensor) (lbl : Int) (p g : Tensor),
        m.predictions_and_gradient img lbl = .ok (p, g) →
        ∀ i, g.data.getD i 0 =
          (m.engine.grad_ce (process_input m.preprocessing img).1.unsqueeze0
            [lbl]).data.getD i 0 * ((m.preprocessing.div.bcast i)⁻¹)) ∧
    (∀ (m : MXNetGluonModel) (imgs : Tensor) (labels : List Int) (g : Tensor),
        m.batch_gradients imgs labels = .ok g →
        ∀ i, g.data.getD i 0 =
          (m.engine.grad_ce (process_input m.preprocessing imgs).1
            labels).data.getD i 0 * ((m.preprocessing.div.bcast i)⁻¹)) ∧
    (∀ (m : MXNetGluonModel) (grads imgs : Tensor) (g : Tensor),
        m.batch_backward grads imgs = .ok g →
        ∀ i, g.data.getD i 0 =
          (m.engine.vjp_grad (process_input m.preprocessing imgs).1
            grads).data.getD i 0 * ((m.preprocessing.div.bcast i)⁻¹)) := by
  refine ⟨?_, ?_, ?_, ?_, ?_, ?_, ?_, ?_, ?_, ?_⟩
  · intro s g i
    exact process_gradient_getD s g i
  · intro m img lbl p g h i
    simp only [KerasModel.predictions_and_gradient] at h
    split at h
    · split at h
      · simp only [Except.ok.injEq, Prod.mk.injEq] at h
        obtain ⟨hp, hg⟩ := h
        subst hg
        exact process_gradient_getD _ _ i
      · simp at h
    · simp at h
  · intro m imgs labels g h i
    simp only [KerasModel.batch_gradients] at h
    split at h
    · injection h with h
      subst h
      exact process_gradient_getD _ _ i
    · simp at h
  · intro m grads imgs g h i
    simp only [KerasModel.batch_backward] at h
    split at h
    · split at h
      · injection h with h
        subst h
        exact process_gradient_getD _ _ i
      · simp at h
    · simp at h
  · intro m img lbl p g h i
    simp only [LasagneModel.predictions_and_gradient] at h
    split at h
    · split at h
      · split at h
        · simp only [Except.ok.injEq, Prod.mk.injEq] at h
          obtain ⟨hp, hg⟩ := h
          subst hg
          exact process_gradient_getD _ _ i
        · simp at h
      · simp at h
    · simp at h
  · intro m imgs labels g h i
    simp only [LasagneModel.batch_gradients] at h
    split at h
    · cases hg0 : m.gradient_one imgs.row0 (labels.getD 0 0) with
      | error e =>
        rw [hg0] at h
        simp [Except.map] at h
      | ok g0 =>
        rw [hg0] at h
        simp only [Except.map, Except.ok.injEq] at h
        subst h
        rw [gradient_one_ok m imgs.row0 (labels.getD 0 0) g0 hg0]
        exact process_gradient_getD _ _ i
    · simp at h
  · intro m grads imgs g h i
    simp only [LasagneModel.batch_backward] at h
    split at h
    · cases hg0 : m.backward_one grads.row0 imgs.row0 with
      | error e =>
        rw [hg0] at h
        simp [Except.map] at h
      | ok g0 =>
        rw [hg0] at h
        simp only [Except.map, Except.ok.injEq] at h
        subst h
        rw [backward_one_ok m grads.row0 imgs.row0 g0 hg0]
        exact process_gradient_getD _ _ i
    · simp at h
  · intro m img lbl p g h i
    simp only [MXNetGluonModel.predictions_and_gradient] at h
    simp only [Except.ok.injEq, Prod.mk.injEq] at h
    obtain ⟨hp, hg⟩ := h
    subst hg
    exact process_gradient_getD _ _ i
  · intro m imgs labels g h i
    simp only [MXNetGluonModel.batch_gradients] at h
    injection h with h
    subst h
    exact process_gradient_getD _ _ i
  · intro m grads imgs g h i
    simp only [MXNetGluonModel.batch_backward] at h
    split at h
    · split at h
      · injection h with h
        subst h
        exact process_gradient_getD _ _ i
      · simp at h
    · simp at h

/-- Witness for C1, at concrete inputs: on every adapter and every
gradient-producing operation of the sample models with divisor 2, the
returned first gradient entry equals the engine gradient entry times
the gradient scale. -/
theorem C1_gradients_unapplied_witness :
    kerasPG.2.data.getD 0 0 =
      (sampleKeras.engine.pred_grad
        (process_input sampleKeras.preprocessing imgOne).1.unsqueeze0
          0).2.data.getD 0 0 * ((sampleKeras.preprocessing.div.bcast 0)⁻¹) ∧
    kerasBG.data.getD 0 0 =
      (sampleKeras.engine.batch_grad
        (process_input sampleKeras.preprocessing imgOneB).1
          [0]).data.getD 0 0 * ((sampleKeras.preprocessing.div.bcast 0)⁻¹) ∧
    kerasBB.data.getD 0 0 =
      (sampleKeras.engine.bw_grad upGradOneB
        (process_input sampleKeras.preprocessing imgOneB).1).data.getD 0 0 *
        ((sampleKeras.preprocessing.div.bcast 0)⁻¹) ∧
    lasagnePG.2.data.getD 0 0 =
      (sampleLasagne.engine.pred_grad_fn
        (process_input sampleLasagne.preprocessing imgOne).1.unsqueeze0
          0).2.data.getD 0 0 * ((sampleLasagne.preprocessing.div.bcast 0)⁻¹) ∧
    lasagneBG.data.getD 0 0 =
      (sampleLasagne.engine.grad_fn
        (process_input sampleLasagne.preprocessing imgOneB.row0).1.unsqueeze0
          ([0].getD 0 0)).data.getD 0 0 *
        ((sampleLasagne.preprocessing.div.bcast 0)⁻¹) ∧
    lasagneBB.data.getD 0 0 =
      (sampleLasagne.engine.bw_grad upGradOneB.row0.unsqueeze0
        (process_input sampleLasagne.preprocessing imgOneB.row0).1.unsqueeze0).data.getD 0 0 *
        ((sampleLasagne.preprocessing.div.bcast 0)⁻¹) ∧
    mxnetPG.2.data.getD 0 0 =
      (sampleMXNet.engine.grad_ce
        (process_input sampleMXNet.preprocessing imgOne).1.unsqueeze0
          [0]).data.getD 0 0 * ((sampleMXNet.preprocessing.div.bcast 0)⁻¹) ∧
    mxnetBG.data.getD 0 0 =
      (sampleMXNet.engine.grad_ce
        (process_input sampleMXNet.preprocessing imgOneB).1
          [0]).data.getD 0 0 * ((sampleMXNet.preprocessing.div.bcast 0)⁻¹) ∧
    mxnetBB.data.getD 0 0 =
      (sampleMXNet.engine.vjp_grad
        (process_input sampleMXNet.preprocessing imgOneB).1
          upGradOneB).data.getD 0 0 * ((sampleMXNet.preprocessing.div.bcast 0)⁻¹) := by
  refine ⟨C1_gradients_unapplied.2.1 sampleKeras imgOne 0 kerasPG.1 kerasPG.2 rfl 0,
          C1_gradients_unapplied.2.2.1 sampleKeras imgOneB [0] kerasBG rfl 0,
          C1_gradients_unapplied.2.2.2.1 sampleKeras upGradOneB imgOneB kerasBB rfl 0,
          C1_gradients_unapplied.2.2.2.2.1 sampleLasagne imgOne 0
            lasagnePG.1 lasagnePG.2 rfl 0,
          C1_gradients_unapplied.2.2.2.2.2.1 sampleLasagne imgOneB [0] lasagneBG rfl 0,
          C1_gradients_unapplied.2.2.2.2.2.2.1 sampleLasagne upGradOneB imgOneB
            lasagneBB rfl 0,
          C1_gradients_unapplied.2.2.2.2.2.2.2.1 sampleMXNet imgOne 0
            mxnetPG.1 mxnetPG.2 rfl 0,
          C1_gradients_unapplied.2.2.2.2.2.2.2.2.1 sampleMXNet imgOneB [0] mxnetBG rfl 0,
          C1_gradients_unapplied.2.2.2.2.2.2.2.2.2 sampleMXNet upGradOneB imgOneB
            mxnetBB rfl 0⟩

/-- C2 counterexample: the Keras adapter does not enforce the gradient
dtype (a float16 input against a float32-computing engine returns a
float32 gradient), and the MXNetGluon adapter does not enforce the
predictions shape (a declared class count of 3 against a five-class
block returns a 5-vector). -/
theorem C2_postcondition_counterexample :
    (mC2keras.predictions_and_gradient imgC2 0).toOption.map
      (fun pg => pg.2.dtype) = some DType.float32 ∧
    imgC2.dtype = DType.float16 ∧
    (mC2gluon.predictions_and_gradient imgC2m 0).toOption.map
      (fun pg => pg.1.shape) = some [5] ∧
    mC2gluon.num_classes = 3 := ⟨rfl, rfl, rfl, rfl⟩

/-- C2 amended: on success, Keras and Lasagne return predictions of
shape `(num_classes(),)` and a gradient shaped like the original input
(both enforced by postcondition checks); the gradient dtype equals the
input dtype unconditionally for Lasagne (which casts), but for Keras
and MXNetGluon only when the engine gradient already has the input
dtype; MXNetGluon checks nothing, so its predictions shape and gradient
shape are as claimed only when the block output and autograd gradient
have the expected engine-side shapes. -/
theorem C2_postconditions_amended :
    (∀ (m : KerasModel) (img : Tensor) (lbl : Int) (p g : Tensor),
        m.predictions_and_gradient img lbl = .ok (p, g) →
        p.shape = [m.num_classes] ∧ g.shape = img.shape) ∧
    (∀ (m : KerasModel) (img : Tensor) (lbl : Int) (p g : Tensor),
        m.predictions_and_gradient img lbl = .ok (p, g) →
        (m.engine.pred_grad (process_input m.preprocessing img).1.unsqueeze0
          lbl).2.dtype = img.dtype →
        g.dtype = img.dtype) ∧
    (∀ (m : LasagneModel) (img : Tensor) (lbl : Int) (p g : Tensor),
        m.predictions_and_gradient img lbl = .ok (p, g) →
        m.num_classes = some (p.shape.getD 0 0) ∧ p.shape = [p.shape.getD 0 0] ∧
        g.shape = img.shape ∧ g.dtype = img.dtype) ∧
    (∀ (m : MXNetGluonModel) (img : Tensor) (lbl : Int) (p g : Tensor),
        m.predictions_and_gradient img lbl = .ok (p, g) →
        ((m.engine.block (process_input m.preprocessing img).1.unsqueeze0).shape =
            [1, m.num_classes] → p.shape = [m.num_classes]) ∧
        ((m.engine.grad_ce (process_input m.preprocessing img).1.unsqueeze0
            [lbl]).shape = 1 :: img.shape → g.shape = img.shape) ∧
        ((m.engine.grad_ce (process_input m.preprocessing img).1.unsqueeze0
            [lbl]).dtype = img.dtype → g.dtype = img.dtype)) := by
  refine ⟨?_, ?_, ?_, ?_⟩
  · intro m img lbl p g h
    simp only [KerasModel.predictions_and_gradient] at h
    split at h
    · next hc1 =>
      split at h
      · next hc2 =>
        simp only [Except.ok.injEq, Prod.mk.injEq] at h
        obtain ⟨hp, hg⟩ := h
        subst hp
        subst hg
        exact ⟨hc1, hc2⟩
      · simp at h
    · simp at h
  · intro m img lbl p g h hd
    simp only [KerasModel.predictions_and_gradient] at h
    split at h
    · split at h
      · simp only [Except.ok.injEq, Prod.mk.injEq] at h
        obtain ⟨hp, hg⟩ := h
        subst hg
        show DType.promote
          (m.engine.pred_grad (process_input m.preprocessing img).1.unsqueeze0
            lbl).2.dtype img.dtype = img.dtype
        rw [hd]
        exact promote_self _
      · simp at h
    · simp at h
  · intro m img lbl p g h
    simp only [LasagneModel.predictions_and_gradient] at h
    split at h
    · next hc1 =>
      split at h
      · next hc2 =>
        split at h
        · next hc3 =>
          simp only [Except.ok.injEq, Prod.mk.injEq] at h
          obtain ⟨hp, hg⟩ := h
          subst hp
          subst hg
          obtain ⟨hn, hs⟩ := clsShape1_spec _ _ hc1
          exact ⟨hn, hs, hc2, hc3⟩
        · simp at h
      · simp at h
    · simp at h
  · intro m img lbl p g h
    simp only [MXNetGluonModel.predictions_and_gradient] at h
    simp only [Except.ok.injEq, Prod.mk.injEq] at h
    obtain ⟨hp, hg⟩ := h
    subst hp
    subst hg
    refine ⟨?_, ?_, ?_⟩
    · intro hb
      show (m.engine.block
        (process_input m.preprocessing img).1.unsqueeze0).shape.tail =
          [m.num_classes]
      rw [hb]
      rfl
    · intro hce
      show (m.engine.grad_ce (process_input m.preprocessing img).1.unsqueeze0
        [lbl]).shape.tail = img.shape
      rw [hce]
      rfl
    · intro hcd
      show DType.promote
        (m.engine.grad_ce (process_input m.preprocessing img).1.unsqueeze0
          [lbl]).dtype img.dtype = img.dtype
      rw [hcd]
      exact promote_self _

/-- Witness for C2 amended, at concrete inputs: the postconditions hold
on the sample adapters whose engines compute in the input dtype and
produce correctly shaped outputs. -/
theorem C2_postconditions_witness :
    (kerasPG.1.shape = [sampleKeras.num_classes] ∧
     kerasPG.2.shape = imgOne.shape) ∧
    kerasPG.2.dtype = imgOne.dtype ∧
    (sampleLasagne.num_classes = some (lasagnePG.1.shape.getD 0 0) ∧
     lasagnePG.1.shape = [lasagnePG.1.shape.getD 0 0] ∧
     lasagnePG.2.shape = imgOne.shape ∧ lasagnePG.2.dtype = imgOne.dtype) ∧
    mxnetPG.1.shape = [sampleMXNet.num_classes] ∧
    mxnetPG.2.shape = imgOne.shape ∧
    mxnetPG.2.dtype = imgOne.dtype := by
  refine ⟨C2_postconditions_amended.1 sampleKeras imgOne 0 kerasPG.1 kerasPG.2 rfl,
          C2_postconditions_amended.2.1 sampleKeras imgOne 0 kerasPG.1 kerasPG.2 rfl rfl,
          C2_postconditions_amended.2.2.1 sampleLasagne imgOne 0
            lasagnePG.1 lasagnePG.2 rfl,
          (C2_postconditions_amended.2.2.2 sampleMXNet imgOne 0
            mxnetPG.1 mxnetPG.2 rfl).1 rfl,
          (C2_postconditions_amended.2.2.2 sampleMXNet imgOne 0
            mxnetPG.1 mxnetPG.2 rfl).2.1 rfl,
          (C2_postconditions_amended.2.2.2 sampleMXNet imgOne 0
            mxnetPG.1 mxnetPG.2 rfl).2.2 rfl⟩

end Foolbox
